import Mathlib

/-!
Verification development for the booking conversation state machine of the
SmartDocs assistant.

The definitions below are a shallow embedding of the Python sources:
  * `packages/agents/state.py`        — `BookingState`, `BookingStateManager`
  * `packages/agents/booking_agent.py`— `BookingAgent._call_llm`,
    `BookingAgent.process_booking_message`, `BookingAgent._execute_booking_workflow`
  * `packages/agents/tools/google_calendar.py` — `CalendarEvent`
  * `packages/agents/tools/persistence_tools.py` — `PersistenceResult`, `BookingRecord`

Python dictionaries are modelled as association lists with unique keys in
insertion order; `dict[k] = v` is `insertA` (update in place when the key is
present, append otherwise), `del dict[k]` is `eraseA`, `k in dict` is
`containsA`.  External collaborators (the LLM extraction call, the calendar
service, the persistence layer, the natural-language date resolver) are
parameters of the functions that invoke them.  `datetime` values and their
`strftime` rendering are abstracted away: no claim refers to concrete clock
times, only to which optional references and messages each workflow path
produces.
-/

namespace SmartDocs

/-! ### Association lists (model of Python `dict`) -/

def lookupA {α : Type} : List (String × α) → String → Option α
  | [], _ => none
  | p :: rest, k => if p.1 = k then some p.2 else lookupA rest k

def containsA {α : Type} (l : List (String × α)) (k : String) : Bool :=
  (lookupA l k).isSome

/-- Python `d[k] = v`: update the existing entry when the key is present,
append at the end otherwise (insertion order is preserved). -/
def insertA {α : Type} (l : List (String × α)) (k : String) (v : α) :
    List (String × α) :=
  if containsA l k then l.map (fun p => if p.1 = k then (k, v) else p)
  else l ++ [(k, v)]

/-- Python `del d[k]` (keys are unique, so filtering removes just that entry). -/
def eraseA {α : Type} (l : List (String × α)) (k : String) : List (String × α) :=
  l.filter (fun p => !(p.1 = k))

/-! ### Data model (`packages/agents/state.py`) -/

/-- `BookingStep` enum from `state.py`. -/
inductive BookingStep where
  | collecting_name
  | collecting_phone
  | collecting_email
  | collecting_date
  | confirming
  | completed
deriving DecidableEq, Repr

/-- `BookingState` dataclass from `state.py`.  `collected` maps field names to
normalized string values (Python stores `str(value)` in every branch). -/
structure BookingState where
  step : BookingStep
  collected : List (String × String)
  required_fields : List String
  chat_id : String
deriving DecidableEq, Repr

/-- The fixed required-field list installed by `create_state`. -/
def requiredFields : List String := ["name", "phone", "email", "date_time"]

/-- `BookingStateManager.states`: the per-process map from chat id to state. -/
abbrev Manager := List (String × BookingState)

/-- `BookingStateManager.get_state`. -/
def getState (m : Manager) (chatId : String) : Option BookingState :=
  lookupA m chatId

/-- Storing a state object under its chat id (`self.states[chat_id] = state`,
and the net effect of in-place mutation of the stored state object). -/
def setState (m : Manager) (chatId : String) (st : BookingState) : Manager :=
  insertA m chatId st

/-- `BookingStateManager.create_state`: unconditionally installs a fresh state
with empty `collected` (overwriting any state already stored for the id). -/
def createState (m : Manager) (chatId : String) : Manager × BookingState :=
  let st : BookingState :=
    { step := BookingStep.collecting_name
      collected := []
      required_fields := requiredFields
      chat_id := chatId }
  (insertA m chatId st, st)

/-- `BookingStateManager.add_collected_info`: `state.collected[field] = value`
on the stored (aliased) state object.  The Python code raises `ValueError`
when no state exists for the id; the agent only calls it with an existing
state, and we keep the manager unchanged in that unreachable case. -/
def addCollectedInfo (m : Manager) (chatId field value : String) : Manager :=
  match getState m chatId with
  | some st => setState m chatId { st with collected := insertA st.collected field value }
  | none => m

/-- `BookingStateManager.get_next_required_field`. -/
def getNextRequiredField (st : BookingState) : Option String :=
  st.required_fields.find? (fun field => !(containsA st.collected field))

/-- `BookingStateManager.is_complete`: every required field is collected. -/
def isComplete (st : BookingState) : Bool :=
  st.required_fields.all (fun field => containsA st.collected field)

/-- `BookingStateManager.clear_state`: delete the entry if present. -/
def clearState (m : Manager) (chatId : String) : Manager :=
  eraseA m chatId

/-- The get-or-create sequence at the top of
`BookingAgent.process_booking_message` (lines 70-72): `create_state` is called
only when `get_state` returned `None`. -/
def getOrCreateState (m : Manager) (chatId : String) : Manager × BookingState :=
  match getState m chatId with
  | some st => (m, st)
  | none => createState m chatId

/-! ### Extraction contract (`BookingResponse`, `BookingAgent._call_llm`) -/

/-- `BookingResponse` pydantic model from `booking_agent.py`.  `extracted_info`
is a dict of canonical field name to raw extracted value (`Any`; the agent
applies `str(...)` before use, which we model as already-string values). -/
structure BookingResponse where
  response : String
  extracted_info : List (String × String)
  next_question : Option String
  is_complete : Bool
deriving DecidableEq, Repr

/-- The fallback `BookingResponse` produced when the parse of the underlying
LLM output raises (the `except` branch of `_call_llm`). -/
def fallbackBookingResponse : BookingResponse :=
  { response := "I didn\x27t understand that. Could you please provide the information I asked for?"
    extracted_info := []
    next_question := none
    is_complete := false }

/-- `BookingAgent._call_llm`, with the provider call and output parsing
abstracted as its outcome: `some r` when `self.parser.parse(content)`
succeeds, `none` when it raises and the fallback response is returned. -/
def callLLM (parsed : Option BookingResponse) : BookingResponse :=
  match parsed with
  | some result => result
  | none => fallbackBookingResponse

/-! ### Field validation branches of `process_booking_message` (lines 148-186) -/

/-- The separator characters stripped from phone candidates
(`.replace(" ", "").replace("-", "").replace("(", "").replace(")", "")`). -/
def isSepChar (c : Char) : Bool :=
  c = ' ' || c = '-' || c = '(' || c = ')'

/-- Net effect of the four `replace(sep, "")` calls: drop every separator. -/
def stripPhoneSeparators (s : String) : String :=
  String.mk (s.data.filter (fun c => !(isSepChar c)))

/-- Python `str.isdigit`: non-empty and all digits (ASCII digits here). -/
def pyIsdigit (s : String) : Bool :=
  !(s.data.isEmpty) && s.data.all Char.isDigit

/-- Result of `resolve_date` from `tools/validators.py` — an external
LLM-backed collaborator, so turns take its behavior as a parameter.
`iso_date` carries the resolved ISO date when `is_valid` is true. -/
structure DateValidation where
  is_valid : Bool
  iso_date : String
  natural_text : String
  reasoning : String
deriving DecidableEq, Repr

/-- One iteration of the `for field, value in llm_response.extracted_info.items()`
loop (lines 149-186 of `booking_agent.py`): guard on
`field in state.required_fields and field not in state.collected`, then branch
on the field name.  Acceptance mutates the stored state's `collected`;
rejection replaces the response with a targeted re-prompt and rebinds
`llm_response.extracted_info` to `{}` — which does not affect the ongoing
iteration, because Python iterates the items of the original dict object. -/
def processField (rd : String → DateValidation) (st : BookingState)
    (resp : BookingResponse) (field value : String) :
    BookingState × BookingResponse :=
  if st.required_fields.contains field && !(containsA st.collected field) then
    if field = "email" then
      if value.data.contains '@' && value.data.contains '.' then
        ({ st with collected := insertA st.collected field value }, resp)
      else
        (st,
         { resp with
             response := "That doesn\x27t look like a valid email address. Could you please provide a valid email?"
             extracted_info := []
             next_question := some "What\x27s your email address?"
             is_complete := false })
    else if field = "phone" then
      let phoneStr := stripPhoneSeparators value
      if pyIsdigit phoneStr && decide (phoneStr.length ≥ 10) then
        ({ st with collected := insertA st.collected field phoneStr }, resp)
      else
        (st,
         { resp with
             response := "That doesn\x27t look like a valid phone number. Could you please provide a valid phone number?"
             extracted_info := []
             next_question := some "What\x27s your phone number?"
             is_complete := false })
    else if field = "date_time" then
      let validation := rd value
      if validation.is_valid then
        ({ st with collected := insertA st.collected field validation.iso_date }, resp)
      else
        (st,
         { resp with
             response := "I couldn\x27t understand that date/time. " ++ validation.reasoning ++ ". Could you please provide a clear date and time?"
             extracted_info := []
             next_question := some "When would you like to schedule the call?"
             is_complete := false })
    else
      ({ st with collected := insertA st.collected field value }, resp)
  else (st, resp)

/-- The whole extraction loop: a left fold of `processField` over the snapshot
of `extracted_info` taken when the loop started. -/
def processExtracted (rd : String → DateValidation)
    (pairs : List (String × String)) (st : BookingState) (resp : BookingResponse) :
    BookingState × BookingResponse :=
  pairs.foldl (fun acc p => processField rd acc.1 acc.2 p.1 p.2) (st, resp)

/-- The per-field accept/normalize decision implicit in the branches of the
loop: `some v` means the candidate passes and `v` is the stored value. -/
def fieldValidate (rd : String → DateValidation) (field value : String) :
    Option String :=
  if field = "email" then
    if value.data.contains '@' && value.data.contains '.' then some value else none
  else if field = "phone" then
    let phoneStr := stripPhoneSeparators value
    if pyIsdigit phoneStr && decide (phoneStr.length ≥ 10) then some phoneStr else none
  else if field = "date_time" then
    if (rd value).is_valid then some (rd value).iso_date else none
  else some value

/-! ### Workflow collaborators
(`tools/google_calendar.py`, `tools/persistence_tools.py`) -/

/-- `CalendarEvent` pydantic model (datetime fields abstracted away: no claim
refers to event times). -/
structure CalendarEvent where
  event_id : String
  title : String
  meeting_link : Option String
  success : Bool
  error_message : Option String
deriving DecidableEq, Repr

/-- Outcome of the `create_calendar_event` call inside the workflow's
`try`/`except`: either the collaborator returned an event (possibly with
`success=False`) or the call raised an exception. -/
inductive CalendarCall where
  | returned (ev : CalendarEvent)
  | raised
deriving DecidableEq, Repr

/-- The mock event synthesized by the `except` branch of step 1 of
`_execute_booking_workflow` (lines 261-274): a *successful* fake event. -/
def mockCalendarEvent (title : String) : CalendarEvent :=
  { event_id := "mock_event_id"
    title := title
    meeting_link := some "https://meet.google.com/mock-link"
    success := true
    error_message := none }

/-- Step 1 of the workflow as executed: the returned event, or the mock event
when the calendar call raised. -/
def calendarStep (cal : CalendarCall) (title : String) : CalendarEvent :=
  match cal with
  | CalendarCall.returned ev => ev
  | CalendarCall.raised => mockCalendarEvent title

/-- The arguments `_execute_booking_workflow` passes to `persist_booking`
(lines 277-286; `meeting_date` abstracted away). -/
structure PersistArgs where
  chat_id : String
  name : String
  email : String
  phone : String
  meeting_title : String
  calendar_event_id : Option String
  meeting_link : Option String
deriving DecidableEq, Repr

/-- `PersistenceResult` pydantic model (`file_path` unused by the agent). -/
structure PersistenceResult where
  success : Bool
  booking_id : Option String
  error_message : Option String
deriving DecidableEq, Repr

/-- The claim-relevant fields of the `BookingRecord` that `persist_booking`
writes (lines 71-85 of `persistence_tools.py`): the optional calendar
references are copied verbatim from the arguments, `status` is `"confirmed"`;
`booking_id` and the timestamp fields are generated at persistence time. -/
structure BookingRecord where
  booking_id : String
  chat_id : String
  name : String
  email : String
  phone : String
  meeting_title : String
  status : String
  calendar_event_id : Option String
  meeting_link : Option String
deriving DecidableEq, Repr

/-- Record construction inside `persist_booking`. -/
def mkBookingRecord (bookingId : String) (args : PersistArgs) : BookingRecord :=
  { booking_id := bookingId
    chat_id := args.chat_id
    name := args.name
    email := args.email
    phone := args.phone
    meeting_title := args.meeting_title
    status := "confirmed"
    calendar_event_id := args.calendar_event_id
    meeting_link := args.meeting_link }

/-! ### Workflow orchestrator (`BookingAgent._execute_booking_workflow`) -/

/-- The dict returned to the caller of `process_booking_message`
(`citations` is always `[]` and `confidence` always `1.0` in the source, so
they are omitted; `booking_id` and `meeting_link` are present only in the
success response of the workflow). -/
structure TurnResult where
  answer : String
  intent : String
  booking_state : Option BookingState
  is_complete : Bool
  booking_id : Option String
  meeting_link : Option String
deriving DecidableEq, Repr

/-- The arguments passed to `persist_booking`: collected values with `""`
defaults (`state.collected.get(field, "")`), the derived title, and the
calendar references gated on `calendar_result.success`. -/
def workflowPersistArgs (chatId : String) (st : BookingState)
    (calRes : CalendarEvent) : PersistArgs :=
  let name := (lookupA st.collected "name").getD ""
  { chat_id := chatId
    name := name
    email := (lookupA st.collected "email").getD ""
    phone := (lookupA st.collected "phone").getD ""
    meeting_title := "Call with " ++ name
    calendar_event_id := if calRes.success then some calRes.event_id else none
    meeting_link := if calRes.success then calRes.meeting_link else none }

/-- The success confirmation text (lines 295-307); the `strftime` date/time
lines are abstracted away, the optional meeting-link and calendar lines and
the booking id follow the source. -/
def confirmationText (calRes : CalendarEvent) (bookingId : Option String) : String :=
  "Perfect! Your call has been scheduled successfully." ++
  (match calRes.success, calRes.meeting_link with
   | true, some link => " Meeting Link: " ++ link
   | _, _ => "") ++
  (if calRes.success then " Calendar Event: Created in your Google Calendar" else "") ++
  " Your booking ID is: " ++ bookingId.getD "None" ++
  " We\x27ll call you at the scheduled time. If you need to reschedule or cancel, please let us know!"

/-- `BookingAgent._execute_booking_workflow` (lines 214-343).  `cal` is the
outcome of the calendar call, `persist` the behavior of `persist_booking`.
Note that `clear_state` is invoked unconditionally (line 291), *before* the
check of `persistence_result.success`.  The enclosing `try`/`except` only
matters for exceptions, which the embedded steps cannot produce. -/
def executeBookingWorkflow (cal : CalendarCall)
    (persist : PersistArgs → PersistenceResult) (m : Manager)
    (chatId : String) (st : BookingState) : Manager × TurnResult :=
  let name := (lookupA st.collected "name").getD ""
  let meetingTitle := "Call with " ++ name
  let calendarResult := calendarStep cal meetingTitle
  let persistenceResult := persist (workflowPersistArgs chatId st calendarResult)
  let m1 := clearState m chatId
  if persistenceResult.success then
    (m1,
     { answer := confirmationText calendarResult persistenceResult.booking_id
       intent := "booking_complete"
       booking_state := none
       is_complete := true
       booking_id := persistenceResult.booking_id
       meeting_link := if calendarResult.success then calendarResult.meeting_link else none })
  else
    (m1,
     { answer := "I\x27m sorry, but there was an issue saving your booking. Please try again or contact support. Error: " ++ (persistenceResult.error_message.getD "None")
       intent := "booking_error"
       booking_state := some st
       is_complete := false
       booking_id := none
       meeting_link := none })

/-! ### The turn driver (`BookingAgent.process_booking_message`) -/

/-- The state-collection part of a turn: get-or-create the state, obtain the
(possibly fallback) LLM response, run the extraction loop over its
`extracted_info`, and write the mutated state back (in Python the loop
mutates the stored state object in place through `add_collected_info`).
Returns the manager, the post-loop state, and the post-loop response. -/
def turnCollect (rd : String → DateValidation) (parsed : Option BookingResponse)
    (m : Manager) (chatId : String) :
    Manager × BookingState × BookingResponse :=
  let mgrSt := getOrCreateState m chatId
  let llmResp := callLLM parsed
  let stResp :=
    if llmResp.extracted_info.isEmpty then (mgrSt.2, llmResp)
    else processExtracted rd llmResp.extracted_info mgrSt.2 llmResp
  (setState mgrSt.1 chatId stResp.1, stResp.1, stResp.2)

/-- `BookingAgent.process_booking_message` (lines 67-212): after the
extraction loop, if the updated state is complete the workflow executes
(line 194-200); otherwise the turn returns a `"booking"`-intent response
carrying the updated state and the (possibly re-prompt) reply. -/
def processBookingMessage (rd : String → DateValidation) (cal : CalendarCall)
    (persist : PersistArgs → PersistenceResult) (parsed : Option BookingResponse)
    (m : Manager) (chatId : String) : Manager × TurnResult :=
  let t := turnCollect rd parsed m chatId
  if isComplete t.2.1 then
    executeBookingWorkflow cal persist t.1 chatId t.2.1
  else
    (t.1,
     { answer := t.2.2.response
       intent := "booking"
       booking_state := some t.2.1
       is_complete := t.2.2.is_complete
       booking_id := none
       meeting_link := none })

/-- The effect of one loop iteration on `collected` alone: insert the
normalized value when the field is missing, required and valid; otherwise
leave `collected` unchanged. -/
def collectStep (rd : String → DateValidation) (required : List String)
    (collected : List (String × String)) (p : String × String) :
    List (String × String) :=
  if required.contains p.1 && !(containsA collected p.1) then
    match fieldValidate rd p.1 p.2 with
    | some nv => insertA collected p.1 nv
    | none => collected
  else collected

/-! ### Concrete fixtures used by closed theorems and witnesses -/

/-- A date resolver that accepts every phrase with a fixed ISO date-time. -/
def rdOk : String → DateValidation :=
  fun s =>
    { is_valid := true, iso_date := "2026-10-13T15:00:00", natural_text := s,
      reasoning := "Valid date" }

/-- A date resolver that accepts exactly the phrase `"tomorrow at 3pm"`. -/
def rdPicky : String → DateValidation :=
  fun s =>
    if s = "tomorrow at 3pm" then
      { is_valid := true, iso_date := "2026-10-13T15:00:00", natural_text := s,
        reasoning := "Valid date" }
    else
      { is_valid := false, iso_date := "", natural_text := s,
        reasoning := "Could not parse" }

/-- A calendar event as returned on success. -/
def okCalendarEvent : CalendarEvent :=
  { event_id := "evt_1", title := "Call with Asha",
    meeting_link := some "https://meet.google.com/abc-defg", success := true,
    error_message := none }

/-- A calendar event reporting failure (`success=False`), as `create_event`
returns when authentication fails or the API raises. -/
def failedCalendarEvent : CalendarEvent :=
  { event_id := "", title := "Call with Asha", meeting_link := none,
    success := false,
    error_message := some "Google Calendar API not available or authentication failed" }

/-- A persistence layer that always succeeds. -/
def persistOk : PersistArgs → PersistenceResult :=
  fun _ => { success := true, booking_id := some "booking_1700000000_42",
             error_message := none }

/-- A persistence layer that always fails (the JSON write raised). -/
def persistFail : PersistArgs → PersistenceResult :=
  fun _ => { success := false, booking_id := none, error_message := some "disk full" }

/-- A freshly created state for conversation `"c1"`. -/
def freshC1 : BookingState :=
  { step := BookingStep.collecting_name, collected := [],
    required_fields := requiredFields, chat_id := "c1" }

/-- A conversation that has already collected name, phone and email. -/
def ashaPartialState : BookingState :=
  { step := BookingStep.collecting_name
    collected := [("name", "Asha"), ("phone", "9812345678"), ("email", "asha@example.com")]
    required_fields := requiredFields
    chat_id := "c1" }

/-- The same conversation after also collecting `date_time`. -/
def ashaCompleteState : BookingState :=
  { step := BookingStep.collecting_name
    collected := [("name", "Asha"), ("phone", "9812345678"),
                  ("email", "asha@example.com"), ("date_time", "2026-10-13T15:00:00")]
    required_fields := requiredFields
    chat_id := "c1" }

/-- A store holding the partially-collected conversation. -/
def mgrPartial : Manager := [("c1", ashaPartialState)]

/-- A store holding the fully-collected conversation. -/
def mgrComplete : Manager := [("c1", ashaCompleteState)]

/-- An extraction result supplying the final missing field. -/
def parsedDateTurn : Option BookingResponse :=
  some { response := "Great, scheduling your call!"
         extracted_info := [("date_time", "tomorrow at 3pm")]
         next_question := none
         is_complete := true }

/-- An extraction batch whose first `date_time` candidate is rejected by
`rdPicky` and whose second one passes. -/
def parsedRejectThenAccept : Option BookingResponse :=
  some { response := "Noted."
         extracted_info := [("date_time", "someday"), ("date_time", "tomorrow at 3pm")]
         next_question := none
         is_complete := false }

/-- An extraction result supplying all four required fields in one turn. -/
def parsedFullTurn : Option BookingResponse :=
  some { response := "All set!"
         extracted_info := [("name", "Asha"), ("phone", "(981) 234-5678"),
                            ("email", "asha@example.com"), ("date_time", "tomorrow at 3pm")]
         next_question := none
         is_complete := true }

/-! ### Association-list lemmas -/

theorem lookupA_nil {α : Type} (k : String) : lookupA ([] : List (String × α)) k = none := rfl

theorem lookupA_cons {α : Type} (p : String × α) (l : List (String × α)) (k : String) :
    lookupA (p :: l) k = if p.1 = k then some p.2 else lookupA l k := rfl

theorem lookupA_append_left {α : Type} {l m : List (String × α)} {k : String} {v : α}
    (h : lookupA l k = some v) : lookupA (l ++ m) k = some v := by
  induction l with
  | nil => simp [lookupA] at h
  | cons p rest ih =>
    rw [lookupA_cons] at h
    by_cases hp : p.1 = k
    · simpa [lookupA_cons, hp] using h
    · simp [lookupA_cons, hp] at h ⊢
      exact ih h

theorem lookupA_eraseA_self {α : Type} (l : List (String × α)) (k : String) :
    lookupA (eraseA l k) k = none := by
  induction l with
  | nil => rfl
  | cons p rest ih =>
    simp only [eraseA, List.filter_cons] at ih ⊢
    by_cases hp : p.1 = k
    · simpa [hp] using ih
    · simpa [hp, lookupA_cons] using ih

theorem lookupA_eraseA_ne {α : Type} (l : List (String × α)) (k k' : String)
    (h : k' ≠ k) : lookupA (eraseA l k) k' = lookupA l k' := by
  induction l with
  | nil => rfl
  | cons p rest ih =>
    simp only [eraseA, List.filter_cons] at ih ⊢
    have hkk : ¬ k = k' := fun hx => h hx.symm
    by_cases hp : p.1 = k
    · simpa [hp, lookupA_cons, hkk] using ih
    · by_cases hp' : p.1 = k'
      · simp [hp, lookupA_cons, hp', h]
      · simpa [hp, lookupA_cons, hp'] using ih

theorem lookupA_mapUpdate_ne {α : Type} (l : List (String × α)) (k k' : String) (v : α)
    (h : k' ≠ k) :
    lookupA (l.map (fun p => if p.1 = k then (k, v) else p)) k' = lookupA l k' := by
  induction l with
  | nil => rfl
  | cons p rest ih =>
    by_cases hp : p.1 = k
    · have hk : ¬ k = k' := fun hx => h hx.symm
      have hpk : ¬ p.1 = k' := by rw [hp]; exact hk
      simp [lookupA_cons, hp, hk, hpk, ih]
    · simp [lookupA_cons, hp, ih]

theorem lookupA_mapUpdate_self {α : Type} (l : List (String × α)) (k : String) (v : α)
    (hc : containsA l k = true) :
    lookupA (l.map (fun p => if p.1 = k then (k, v) else p)) k = some v := by
  induction l with
  | nil => simp [containsA, lookupA] at hc
  | cons p rest ih =>
    by_cases hp : p.1 = k
    · simp [lookupA_cons, hp]
    · simp only [containsA, lookupA_cons, hp, if_false] at hc
      simp [lookupA_cons, hp, ih hc]

theorem lookupA_append_single_ne {α : Type} (l : List (String × α)) (k k' : String)
    (v : α) (h : k' ≠ k) : lookupA (l ++ [(k, v)]) k' = lookupA l k' := by
  induction l with
  | nil =>
    have hk : ¬ k = k' := fun hx => h hx.symm
    simp [lookupA_cons, lookupA, hk]
  | cons p rest ih =>
    by_cases hp : p.1 = k'
    · simp [lookupA_cons, hp]
    · simp [lookupA_cons, hp, ih]

theorem lookupA_append_single_self {α : Type} (l : List (String × α)) (k : String)
    (v : α) (hc : containsA l k = false) : lookupA (l ++ [(k, v)]) k = some v := by
  induction l with
  | nil => simp [lookupA_cons, lookupA]
  | cons p rest ih =>
    simp only [containsA, lookupA_cons] at hc
    by_cases hp : p.1 = k
    · simp [hp] at hc
    · simp only [hp, if_false] at hc
      simp [lookupA_cons, hp, ih hc]

/-- Appending a fresh key keeps every present binding. -/
theorem lookupA_insert_fresh_of_mem {α : Type} {l : List (String × α)} {k k' : String}
    {v v' : α} (hfresh : containsA l k = false) (h : lookupA l k' = some v') :
    lookupA (insertA l k v) k' = some v' := by
  rw [insertA, hfresh]
  simp only [Bool.false_eq_true, if_false]
  exact lookupA_append_left h

theorem lookupA_insertA_self {α : Type} (l : List (String × α)) (k : String) (v : α) :
    lookupA (insertA l k v) k = some v := by
  rw [insertA]
  by_cases hc : containsA l k
  · simpa [hc] using lookupA_mapUpdate_self l k v hc
  · simp only [hc, Bool.false_eq_true, if_false]
    exact lookupA_append_single_self l k v (by simpa using hc)

theorem lookupA_insertA_ne {α : Type} (l : List (String × α)) (k k' : String) (v : α)
    (h : k' ≠ k) : lookupA (insertA l k v) k' = lookupA l k' := by
  rw [insertA]
  by_cases hc : containsA l k
  · simpa [hc] using lookupA_mapUpdate_ne l k k' v h
  · simp only [hc, Bool.false_eq_true, if_false]
    exact lookupA_append_single_ne l k k' v h

theorem containsA_of_lookupA {α : Type} {l : List (String × α)} {k : String} {v : α}
    (h : lookupA l k = some v) : containsA l k = true := by
  simp [containsA, h]

/-! ### Bridging lemmas -/

theorem processField_fst (rd : String → DateValidation) (st : BookingState)
    (resp : BookingResponse) (f v : String) :
    (processField rd st resp f v).1 =
      { st with collected := collectStep rd st.required_fields st.collected (f, v) } := by
  by_cases hg : (st.required_fields.contains f && !(containsA st.collected f)) = true
  · obtain ⟨hg1, hg2⟩ : f ∈ st.required_fields ∧ containsA st.collected f = false := by
      simpa using hg
    by_cases he : f = "email"
    · subst he
      by_cases hv : (v.data.contains '@' && v.data.contains '.') = true
      · obtain ⟨ha, hb⟩ : '@' ∈ v.data ∧ '.' ∈ v.data := by simpa using hv
        simp [processField, collectStep, fieldValidate, hg1, hg2, ha, hb]
      · have hv' : ¬ ('@' ∈ v.data ∧ '.' ∈ v.data) := by simpa using hv
        simp [processField, collectStep, fieldValidate, hg1, hg2, hv']
    · by_cases hp : f = "phone"
      · subst hp
        by_cases hv : (pyIsdigit (stripPhoneSeparators v) && decide ((stripPhoneSeparators v).length ≥ 10)) = true
        · simp [processField, collectStep, fieldValidate, hg1, hg2, hv, he]
        · simp [processField, collectStep, fieldValidate, hg1, hg2, hv, he]
      · by_cases hd : f = "date_time"
        · subst hd
          by_cases hv : (rd v).is_valid = true
          · simp [processField, collectStep, fieldValidate, hg1, hg2, hv, he, hp]
          · simp [processField, collectStep, fieldValidate, hg1, hg2, hv, he, hp]
        · simp [processField, collectStep, fieldValidate, hg1, hg2, he, hp, hd]
  · have hg' : ¬ (f ∈ st.required_fields ∧ containsA st.collected f = false) := by
      intro hmem
      exact hg (by simp [hmem.1, hmem.2])
    simp [processField, collectStep, fieldValidate, hg']

theorem processExtracted_collected (rd : String → DateValidation)
    (pairs : List (String × String)) (st : BookingState) (resp : BookingResponse) :
    (processExtracted rd pairs st resp).1.collected =
      pairs.foldl (collectStep rd st.required_fields) st.collected := by
  induction pairs generalizing st resp with
  | nil => rfl
  | cons p rest ih =>
    show (processExtracted rd rest (processField rd st resp p.1 p.2).1
            (processField rd st resp p.1 p.2).2).1.collected = _
    rw [processField_fst rd st resp p.1 p.2, ih]
    rfl

theorem processExtracted_required (rd : String → DateValidation)
    (pairs : List (String × String)) (st : BookingState) (resp : BookingResponse) :
    (processExtracted rd pairs st resp).1.required_fields = st.required_fields := by
  induction pairs generalizing st resp with
  | nil => rfl
  | cons p rest ih =>
    show (processExtracted rd rest (processField rd st resp p.1 p.2).1
            (processField rd st resp p.1 p.2).2).1.required_fields = _
    rw [ih, processField_fst rd st resp p.1 p.2]

/-- A binding already present in `collected` survives one loop iteration
unchanged (insertion only happens for a field that is not yet collected). -/
theorem collectStep_lookup_preserved (rd : String → DateValidation)
    (required : List String) (collected : List (String × String))
    (p : String × String) (f : String) (v : String)
    (h : lookupA collected f = some v) :
    lookupA (collectStep rd required collected p) f = some v := by
  unfold collectStep
  split
  case isTrue hguard =>
    obtain ⟨hmem, hcon⟩ : p.1 ∈ required ∧ containsA collected p.1 = false := by
      simpa using hguard
    split
    case h_1 nv hval =>
      by_cases hpf : f = p.1
      · subst hpf
        rw [containsA_of_lookupA h] at hcon
        cases hcon
      · rw [lookupA_insertA_ne _ _ _ _ hpf]
        exact h
    case h_2 => exact h
  case isFalse => exact h

/-- A binding already present in `collected` survives the whole loop. -/
theorem foldCollect_lookup_preserved (rd : String → DateValidation)
    (required : List String) (pairs : List (String × String))
    (collected : List (String × String)) (f v : String)
    (h : lookupA collected f = some v) :
    lookupA (pairs.foldl (collectStep rd required) collected) f = some v := by
  induction pairs generalizing collected with
  | nil => exact h
  | cons p rest ih =>
    exact ih _ (collectStep_lookup_preserved rd required collected p f v h)

/-- Provenance: every binding after the loop was either already collected
before the loop, or comes from some candidate of the batch that passed its
validator (and names a required field). -/
theorem foldCollect_lookup_source (rd : String → DateValidation)
    (required : List String) (pairs : List (String × String))
    (collected : List (String × String)) (f v : String)
    (h : lookupA (pairs.foldl (collectStep rd required) collected) f = some v) :
    lookupA collected f = some v ∨
      (f ∈ required ∧ ∃ raw, (f, raw) ∈ pairs ∧ fieldValidate rd f raw = some v) := by
  induction pairs generalizing collected with
  | nil => exact Or.inl h
  | cons p rest ih =>
    rcases ih _ h with h1 | h2
    · unfold collectStep at h1
      revert h1
      split
      case isTrue hguard =>
        obtain ⟨hmem, hcon⟩ : p.1 ∈ required ∧ containsA collected p.1 = false := by
          simpa using hguard
        split
        case h_1 nv hval =>
          intro h1
          by_cases hpf : f = p.1
          · subst hpf
            rw [lookupA_insertA_self] at h1
            refine Or.inr ⟨hmem, p.2, ?_, ?_⟩
            · exact List.mem_cons_self p rest
            · cases h1
              exact hval
          · rw [lookupA_insertA_ne _ _ _ _ hpf] at h1
            exact Or.inl h1
        case h_2 =>
          intro h1
          exact Or.inl h1
      case isFalse =>
        intro h1
        exact Or.inl h1
    · exact Or.inr ⟨h2.1, h2.2.choose, List.mem_cons_of_mem p h2.2.choose_spec.1,
        h2.2.choose_spec.2⟩

/-- Every field name collected by the loop either was collected before or is
the name of one of the batch's candidates. -/
theorem foldCollect_contains_source (rd : String → DateValidation)
    (required : List String) (pairs : List (String × String))
    (collected : List (String × String)) (f : String)
    (h : containsA (pairs.foldl (collectStep rd required) collected) f = true) :
    containsA collected f = true ∨ f ∈ pairs.map Prod.fst := by
  rw [containsA, Option.isSome_iff_exists] at h
  obtain ⟨v, hv⟩ := h
  rcases foldCollect_lookup_source rd required pairs collected f v hv with h1 | h2
  · exact Or.inl (containsA_of_lookupA h1)
  · right
    obtain ⟨raw, hraw, _⟩ := h2.2
    exact List.mem_map_of_mem Prod.fst hraw

/-- A candidate that fails its validator leaves `collected` untouched. -/
theorem collectStep_of_invalid (rd : String → DateValidation)
    (required : List String) (collected : List (String × String))
    (p : String × String) (h : fieldValidate rd p.1 p.2 = none) :
    collectStep rd required collected p = collected := by
  unfold collectStep
  split
  · rw [h]
  · rfl

theorem isComplete_contains {st : BookingState} (h : isComplete st = true)
    {f : String} (hf : f ∈ st.required_fields) :
    containsA st.collected f = true := by
  unfold isComplete at h
  rw [List.all_eq_true] at h
  exact h f hf

/-! ### Turn-level lemmas -/

theorem getOrCreateState_some (m : Manager) (chatId : String) (st : BookingState)
    (h : getState m chatId = some st) : getOrCreateState m chatId = (m, st) := by
  unfold getOrCreateState
  rw [h]

theorem getOrCreateState_snd_of_none (m : Manager) (chatId : String)
    (h : getState m chatId = none) :
    (getOrCreateState m chatId).2 =
      { step := BookingStep.collecting_name, collected := [],
        required_fields := requiredFields, chat_id := chatId } := by
  unfold getOrCreateState createState
  rw [h]

theorem getState_turnCollect (rd : String → DateValidation)
    (parsed : Option BookingResponse) (m : Manager) (chatId : String) :
    getState (turnCollect rd parsed m chatId).1 chatId =
      some (turnCollect rd parsed m chatId).2.1 := by
  unfold turnCollect
  exact lookupA_insertA_self _ _ _

theorem turnCollect_required (rd : String → DateValidation)
    (parsed : Option BookingResponse) (m : Manager) (chatId : String) :
    (turnCollect rd parsed m chatId).2.1.required_fields =
      (getOrCreateState m chatId).2.required_fields := by
  unfold turnCollect
  by_cases he : (callLLM parsed).extracted_info.isEmpty
  · simp [he]
  · simp [he, processExtracted_required]

theorem turnCollect_collected (rd : String → DateValidation)
    (parsed : Option BookingResponse) (m : Manager) (chatId : String) :
    (turnCollect rd parsed m chatId).2.1.collected =
      (callLLM parsed).extracted_info.foldl
        (collectStep rd (getOrCreateState m chatId).2.required_fields)
        (getOrCreateState m chatId).2.collected := by
  unfold turnCollect
  by_cases he : (callLLM parsed).extracted_info.isEmpty
  · have hnil : (callLLM parsed).extracted_info = [] := by
      simpa [List.isEmpty_iff] using he
    simp [he, hnil]
  · simp [he, processExtracted_collected]

/-- With an unparsable extraction outcome the turn degenerates: fallback
response, no extracted fields, state written back unchanged. -/
theorem turnCollect_none (rd : String → DateValidation) (m : Manager)
    (chatId : String) :
    turnCollect rd none m chatId =
      (setState (getOrCreateState m chatId).1 chatId (getOrCreateState m chatId).2,
       (getOrCreateState m chatId).2, fallbackBookingResponse) := rfl

/-- Unfolding of `executeBookingWorkflow` with the `let`-bindings
substituted. -/
theorem executeBookingWorkflow_eq (cal : CalendarCall)
    (persist : PersistArgs → PersistenceResult) (m : Manager) (chatId : String)
    (st : BookingState) :
    executeBookingWorkflow cal persist m chatId st =
      (if (persist (workflowPersistArgs chatId st
            (calendarStep cal ("Call with " ++ (lookupA st.collected "name").getD "")))).success then
        (clearState m chatId,
         { answer := confirmationText
             (calendarStep cal ("Call with " ++ (lookupA st.collected "name").getD ""))
             (persist (workflowPersistArgs chatId st
               (calendarStep cal ("Call with " ++ (lookupA st.collected "name").getD "")))).booking_id
           intent := "booking_complete"
           booking_state := none
           is_complete := true
           booking_id := (persist (workflowPersistArgs chatId st
               (calendarStep cal ("Call with " ++ (lookupA st.collected "name").getD "")))).booking_id
           meeting_link :=
             if (calendarStep cal ("Call with " ++ (lookupA st.collected "name").getD "")).success then
               (calendarStep cal ("Call with " ++ (lookupA st.collected "name").getD "")).meeting_link
             else none })
      else
        (clearState m chatId,
         { answer := "I\x27m sorry, but there was an issue saving your booking. Please try again or contact support. Error: " ++
             ((persist (workflowPersistArgs chatId st
               (calendarStep cal ("Call with " ++ (lookupA st.collected "name").getD "")))).error_message.getD "None")
           intent := "booking_error"
           booking_state := some st
           is_complete := false
           booking_id := none
           meeting_link := none })) := rfl

/-- Both workflow exits clear the state from the store. -/
theorem executeBookingWorkflow_getState (cal : CalendarCall)
    (persist : PersistArgs → PersistenceResult) (m : Manager) (chatId : String)
    (st : BookingState) :
    getState (executeBookingWorkflow cal persist m chatId st).1 chatId = none := by
  rw [executeBookingWorkflow_eq]
  split
  · exact lookupA_eraseA_self _ _
  · exact lookupA_eraseA_self _ _

/-- Both workflow exits report a workflow intent, never the collecting one. -/
theorem executeBookingWorkflow_intent_ne (cal : CalendarCall)
    (persist : PersistArgs → PersistenceResult) (m : Manager) (chatId : String)
    (st : BookingState) :
    (executeBookingWorkflow cal persist m chatId st).2.intent ≠ "booking" := by
  rw [executeBookingWorkflow_eq]
  split
  · exact (by decide : ("booking_complete" : String) ≠ "booking")
  · exact (by decide : ("booking_error" : String) ≠ "booking")

theorem processBookingMessage_complete_eq (rd : String → DateValidation)
    (cal : CalendarCall) (persist : PersistArgs → PersistenceResult)
    (parsed : Option BookingResponse) (m : Manager) (chatId : String)
    (hc : isComplete (turnCollect rd parsed m chatId).2.1 = true) :
    processBookingMessage rd cal persist parsed m chatId =
      executeBookingWorkflow cal persist (turnCollect rd parsed m chatId).1
        chatId (turnCollect rd parsed m chatId).2.1 := by
  unfold processBookingMessage
  rw [if_pos hc]

theorem processBookingMessage_incomplete_eq (rd : String → DateValidation)
    (cal : CalendarCall) (persist : PersistArgs → PersistenceResult)
    (parsed : Option BookingResponse) (m : Manager) (chatId : String)
    (hc : ¬ isComplete (turnCollect rd parsed m chatId).2.1 = true) :
    processBookingMessage rd cal persist parsed m chatId =
      ((turnCollect rd parsed m chatId).1,
       { answer := (turnCollect rd parsed m chatId).2.2.response
         intent := "booking"
         booking_state := some (turnCollect rd parsed m chatId).2.1
         is_complete := (turnCollect rd parsed m chatId).2.2.is_complete
         booking_id := none
         meeting_link := none }) := by
  unfold processBookingMessage
  rw [if_neg hc]

/-! ### Character-class facts used by the phone validator -/

theorem isSepChar_eq_false_of_isAlpha {c : Char} (h : c.isAlpha = true) :
    isSepChar c = false := by
  unfold isSepChar
  by_cases h1 : c = ' '
  · subst h1
    exact absurd h (by decide)
  · by_cases h2 : c = '-'
    · subst h2
      exact absurd h (by decide)
    · by_cases h3 : c = '('
      · subst h3
        exact absurd h (by decide)
      · by_cases h4 : c = ')'
        · subst h4
          exact absurd h (by decide)
        · simp [h1, h2, h3, h4]

theorem isDigit_eq_false_of_isAlpha {c : Char} (h : c.isAlpha = true) :
    c.isDigit = false := by
  simp [Char.isAlpha, Char.isUpper, Char.isLower] at h
  simp [Char.isDigit]
  rcases h with ⟨h1, _⟩ | ⟨h1, _⟩ <;> intro _
  · show (57 : UInt32).toNat < c.val.toNat
    have h1n : (65 : UInt32).toNat ≤ c.val.toNat := h1
    have e1 : (65 : UInt32).toNat = 65 := rfl
    have e2 : (57 : UInt32).toNat = 57 := rfl
    rw [e1] at h1n
    rw [e2]
    omega
  · show (57 : UInt32).toNat < c.val.toNat
    have h1n : (97 : UInt32).toNat ≤ c.val.toNat := h1
    have e1 : (97 : UInt32).toNat = 97 := rfl
    have e2 : (57 : UInt32).toNat = 57 := rfl
    rw [e1] at h1n
    rw [e2]
    omega

/-- An accepted candidate for a missing required field ends up in
`collected` under its normalized value. -/
theorem collectStep_lookup_accepted (rd : String → DateValidation)
    (required : List String) (collected : List (String × String))
    (f s nv : String) (hmem : f ∈ required)
    (hcon : containsA collected f = false)
    (hfv : fieldValidate rd f s = some nv) :
    lookupA (collectStep rd required collected (f, s)) f = some nv := by
  have hcont : required.contains f = true := by simpa using hmem
  have hguard : (required.contains f && !(containsA collected f)) = true := by
    rw [hcont, hcon]
    rfl
  show lookupA
      (if required.contains f && !(containsA collected f) then
        match fieldValidate rd f s with
        | some nv => insertA collected f nv
        | none => collected
      else collected) f = some nv
  rw [if_pos hguard, hfv]
  exact lookupA_insertA_self _ _ _

/-! ### Claim theorems -/

/-- Claim C5: collected fields are write-once and validator-gated.  For every
turn of the slot-filling loop, (i) a binding present in `collected` before the
loop is still there, with the same value, afterwards (no overwrite by any
later candidate), and (ii) every binding after the loop either predates it or
stems from a candidate of the batch whose value passed the corresponding
validator (and names a required field). -/
theorem c5_collected_write_once (rd : String → DateValidation)
    (pairs : List (String × String)) (st : BookingState) (resp : BookingResponse)
    (f v : String) :
    (lookupA st.collected f = some v →
      lookupA (processExtracted rd pairs st resp).1.collected f = some v) ∧
    (lookupA (processExtracted rd pairs st resp).1.collected f = some v →
      lookupA st.collected f = some v ∨
        (f ∈ st.required_fields ∧
          ∃ raw, (f, raw) ∈ pairs ∧ fieldValidate rd f raw = some v)) := by
  rw [processExtracted_collected]
  exact ⟨foldCollect_lookup_preserved rd st.required_fields pairs st.collected f v,
         foldCollect_lookup_source rd st.required_fields pairs st.collected f v⟩

/-- Witness for C5: a later `name` candidate does not overwrite the collected
name, and the stored `date_time` value of a completed turn traces back to a
validated candidate. -/
theorem c5_collected_write_once_witness :
    lookupA (processExtracted rdOk [("name", "Bob"), ("date_time", "tomorrow at 3pm")]
        ashaPartialState fallbackBookingResponse).1.collected "name" = some "Asha" ∧
    (lookupA ashaPartialState.collected "date_time" = some "2026-10-13T15:00:00" ∨
      ("date_time" ∈ ashaPartialState.required_fields ∧
        ∃ raw, ("date_time", raw) ∈ [("name", "Bob"), ("date_time", "tomorrow at 3pm")] ∧
          fieldValidate rdOk "date_time" raw = some "2026-10-13T15:00:00")) := by
  refine ⟨?_, ?_⟩
  · exact (c5_collected_write_once rdOk [("name", "Bob"), ("date_time", "tomorrow at 3pm")]
      ashaPartialState fallbackBookingResponse "name" "Asha").1 rfl
  · exact (c5_collected_write_once rdOk [("name", "Bob"), ("date_time", "tomorrow at 3pm")]
      ashaPartialState fallbackBookingResponse "date_time" "2026-10-13T15:00:00").2 rfl

/-- Claim C6: the phone branch accepts exactly the candidates whose
separator-stripped form is a digit string of length at least ten, storing the
digits-only normalized value, and rejects (without storing) every candidate
containing a letter. -/
theorem c6_phone_validation (rd : String → DateValidation) (s : String)
    (st : BookingState) (resp : BookingResponse) :
    (((stripPhoneSeparators s).data.all Char.isDigit = true ∧
        10 ≤ (stripPhoneSeparators s).length) →
      fieldValidate rd "phone" s = some (stripPhoneSeparators s) ∧
      ("phone" ∈ st.required_fields → containsA st.collected "phone" = false →
        lookupA (processExtracted rd [("phone", s)] st resp).1.collected "phone" =
          some (stripPhoneSeparators s))) ∧
    ((∃ c ∈ s.data, c.isAlpha = true) →
      fieldValidate rd "phone" s = none ∧
      (processExtracted rd [("phone", s)] st resp).1.collected = st.collected) := by
  constructor
  · rintro ⟨hdig, hlen⟩
    have hne : (stripPhoneSeparators s).data.isEmpty = false := by
      cases hnil : (stripPhoneSeparators s).data with
      | nil =>
        have hlen0 : (stripPhoneSeparators s).length = 0 := by
          rw [String.length, hnil]
          rfl
        rw [hlen0] at hlen
        omega
      | cons a l => rfl
    have hpy : pyIsdigit (stripPhoneSeparators s) = true := by
      unfold pyIsdigit
      rw [hne, hdig]
      rfl
    have hcond : (pyIsdigit (stripPhoneSeparators s) &&
        decide ((stripPhoneSeparators s).length ≥ 10)) = true := by
      rw [hpy]
      simp only [Bool.true_and, decide_eq_true_eq]
      exact hlen
    have hfv : fieldValidate rd "phone" s = some (stripPhoneSeparators s) := by
      simp [fieldValidate, hcond]
    refine ⟨hfv, ?_⟩
    intro hmem hcon
    rw [processExtracted_collected]
    exact collectStep_lookup_accepted rd st.required_fields st.collected
      "phone" s (stripPhoneSeparators s) hmem hcon hfv
  · rintro ⟨c, hc_mem, hc_alpha⟩
    have hsep : isSepChar c = false := isSepChar_eq_false_of_isAlpha hc_alpha
    have hdig : c.isDigit = false := isDigit_eq_false_of_isAlpha hc_alpha
    have hc_strip : c ∈ (stripPhoneSeparators s).data := by
      show c ∈ s.data.filter (fun ch => !(isSepChar ch))
      exact List.mem_filter.mpr ⟨hc_mem, by simp [hsep]⟩
    have hall : (stripPhoneSeparators s).data.all Char.isDigit = false := by
      rw [List.all_eq_false]
      exact ⟨c, hc_strip, by simp [hdig]⟩
    have hpy : pyIsdigit (stripPhoneSeparators s) = false := by
      unfold pyIsdigit
      rw [hall]
      simp
    have hfv : fieldValidate rd "phone" s = none := by
      simp [fieldValidate, hpy]
    refine ⟨hfv, ?_⟩
    rw [processExtracted_collected]
    exact collectStep_of_invalid rd st.required_fields st.collected ("phone", s) hfv

/-- Witness for C6: a separator-formatted valid number is normalized and
stored; a candidate containing the letter `a` is rejected. -/
theorem c6_phone_validation_witness :
    fieldValidate rdOk "phone" "(981) 234-5678" = some "9812345678" ∧
    lookupA (processExtracted rdOk [("phone", "(981) 234-5678")] freshC1
      fallbackBookingResponse).1.collected "phone" = some "9812345678" ∧
    fieldValidate rdOk "phone" "98a12345678" = none := by
  have h1 := (c6_phone_validation rdOk "(981) 234-5678" freshC1 fallbackBookingResponse).1
    (by decide)
  have h2 := (c6_phone_validation rdOk "98a12345678" freshC1 fallbackBookingResponse).2
    ⟨'a', by decide, by decide⟩
  exact ⟨h1.1, h1.2 (by decide) rfl, h2.1⟩

/-- Claim C7 fails on the code: the email branch only checks that the
candidate contains an `@` and a `.` anywhere.  The candidate `"a.b@c"` has no
`.` after its `@` — no `.`-separated domain suffix — yet it is accepted and
stored. -/
theorem c7_email_counterexample :
    lookupA (processExtracted rdOk [("email", "a.b@c")] freshC1
      fallbackBookingResponse).1.collected "email" = some "a.b@c" ∧
    (("a.b@c").data.dropWhile (fun ch => ch != '@')).all (fun ch => ch != '.') = true := by
  exact ⟨rfl, rfl⟩

/-- Claim C7 (amended): the email validation accepts a candidate exactly when
it contains at least one `@` and at least one `.` anywhere in the string (no
further syntax check); every candidate lacking an `@` or lacking a `.` is
rejected and not stored. -/
theorem c7_email_amended (rd : String → DateValidation) (s : String)
    (st : BookingState) (resp : BookingResponse) :
    (fieldValidate rd "email" s = some s ↔
      (s.data.contains '@' = true ∧ s.data.contains '.' = true)) ∧
    (¬ (s.data.contains '@' = true ∧ s.data.contains '.' = true) →
      (processExtracted rd [("email", s)] st resp).1.collected = st.collected) := by
  have hfv_eq : fieldValidate rd "email" s =
      (if s.data.contains '@' && s.data.contains '.' then some s else none) := by
    simp [fieldValidate]
  constructor
  · constructor
    · intro h
      by_cases hv : (s.data.contains '@' && s.data.contains '.') = true
      · simpa using hv
      · rw [hfv_eq, if_neg hv] at h
        cases h
    · rintro ⟨h1, h2⟩
      rw [hfv_eq, if_pos (by rw [h1, h2]; rfl)]
  · intro hnv
    have hfv : fieldValidate rd "email" s = none := by
      rw [hfv_eq, if_neg (fun hb => hnv (by simpa using hb))]
    rw [processExtracted_collected]
    exact collectStep_of_invalid rd st.required_fields st.collected ("email", s) hfv

/-- Witness for the amended C7: `"a@"` (no dot) is rejected and not stored,
`"x@y.z"` is accepted. -/
theorem c7_email_amended_witness :
    (processExtracted rdOk [("email", "a@")] freshC1 fallbackBookingResponse).1.collected =
      freshC1.collected ∧
    fieldValidate rdOk "email" "x@y.z" = some "x@y.z" := by
  refine ⟨(c7_email_amended rdOk "a@" freshC1 fallbackBookingResponse).2 (by decide), ?_⟩
  exact (c7_email_amended rdOk "x@y.z" freshC1 fallbackBookingResponse).1.mpr (by decide)

/-- Claim C8 fails on the code: the name branch stores the candidate exactly
as extracted, with no trimming and no emptiness check — a whitespace-only
name is accepted and stored with its whitespace. -/
theorem c8_name_counterexample :
    lookupA (processExtracted rdOk [("name", "   ")] freshC1
      fallbackBookingResponse).1.collected "name" = some "   " := rfl

/-- Claim C8 (amended): the name branch performs no validation at all — every
candidate, including the empty and whitespace-only ones, is accepted and
stored verbatim (`str(value)`), without trimming. -/
theorem c8_name_amended (rd : String → DateValidation) (s : String)
    (st : BookingState) (resp : BookingResponse)
    (hmem : "name" ∈ st.required_fields)
    (hcon : containsA st.collected "name" = false) :
    fieldValidate rd "name" s = some s ∧
    lookupA (processExtracted rd [("name", s)] st resp).1.collected "name" = some s := by
  have hfv : fieldValidate rd "name" s = some s := by
    simp [fieldValidate]
  refine ⟨hfv, ?_⟩
  rw [processExtracted_collected]
  exact collectStep_lookup_accepted rd st.required_fields st.collected "name" s s
    hmem hcon hfv

/-- Witness for the amended C8: the untrimmed candidate `"  Asha  "` is
stored with its surrounding whitespace. -/
theorem c8_name_amended_witness :
    fieldValidate rdOk "name" "  Asha  " = some "  Asha  " ∧
    lookupA (processExtracted rdOk [("name", "  Asha  ")] freshC1
      fallbackBookingResponse).1.collected "name" = some "  Asha  " :=
  c8_name_amended rdOk "  Asha  " freshC1 fallbackBookingResponse (by decide) rfl

/-- Claim C3: the workflow executes exactly once per conversation.  (i) A
turn hands off to the booking workflow (its result carries a workflow intent
rather than the collecting intent `"booking"`) precisely when, after the
turn's field acceptances, the collected map covers every required field;
(ii) whenever the workflow runs, the conversation is removed from the store;
(iii) a turn that starts with no stored state (in particular any turn after a
successful workflow run retired the state) can reach the workflow only if
every one of the four required fields is supplied by that turn's own
extraction batch — i.e. only by re-collecting every field. -/
theorem c3_workflow_exactly_once (rd : String → DateValidation) (cal : CalendarCall)
    (persist : PersistArgs → PersistenceResult) (parsed : Option BookingResponse)
    (m : Manager) (chatId : String) :
    ((processBookingMessage rd cal persist parsed m chatId).2.intent ≠ "booking" ↔
      isComplete (turnCollect rd parsed m chatId).2.1 = true) ∧
    (isComplete (turnCollect rd parsed m chatId).2.1 = true →
      getState (processBookingMessage rd cal persist parsed m chatId).1 chatId = none) ∧
    (getState m chatId = none →
      isComplete (turnCollect rd parsed m chatId).2.1 = true →
      ∀ f ∈ requiredFields, f ∈ (callLLM parsed).extracted_info.map Prod.fst) := by
  refine ⟨?_, ?_, ?_⟩
  · by_cases hc : isComplete (turnCollect rd parsed m chatId).2.1 = true
    · rw [processBookingMessage_complete_eq rd cal persist parsed m chatId hc]
      exact iff_of_true (executeBookingWorkflow_intent_ne _ _ _ _ _) hc
    · rw [processBookingMessage_incomplete_eq rd cal persist parsed m chatId hc]
      constructor
      · intro hne
        exact absurd rfl hne
      · intro h
        exact absurd h hc
  · intro hc
    rw [processBookingMessage_complete_eq rd cal persist parsed m chatId hc]
    exact executeBookingWorkflow_getState _ _ _ _ _
  · intro hnone hc f hf
    have hsnd := getOrCreateState_snd_of_none m chatId hnone
    have hreq : (turnCollect rd parsed m chatId).2.1.required_fields = requiredFields := by
      rw [turnCollect_required, hsnd]
    have hcol : (turnCollect rd parsed m chatId).2.1.collected =
        (callLLM parsed).extracted_info.foldl (collectStep rd requiredFields) [] := by
      rw [turnCollect_collected, hsnd]
    have hcf : containsA (turnCollect rd parsed m chatId).2.1.collected f = true :=
      isComplete_contains hc (by rw [hreq]; exact hf)
    rw [hcol] at hcf
    rcases foldCollect_contains_source rd requiredFields _ [] f hcf with h1 | h2
    · simp [containsA, lookupA] at h1
    · exact h2

/-- Witness for C3: a turn that completes the field set runs the workflow and
retires the state, and a from-scratch completing turn supplies every required
field itself. -/
theorem c3_workflow_exactly_once_witness :
    (processBookingMessage rdOk (CalendarCall.returned okCalendarEvent) persistOk
      parsedDateTurn mgrPartial "c1").2.intent ≠ "booking" ∧
    getState (processBookingMessage rdOk (CalendarCall.returned okCalendarEvent) persistOk
      parsedDateTurn mgrPartial "c1").1 "c1" = none ∧
    "date_time" ∈ (callLLM parsedFullTurn).extracted_info.map Prod.fst := by
  have h := c3_workflow_exactly_once rdOk (CalendarCall.returned okCalendarEvent)
    persistOk parsedDateTurn mgrPartial "c1"
  have h0 := c3_workflow_exactly_once rdOk (CalendarCall.returned okCalendarEvent)
    persistOk parsedFullTurn [] "c1"
  have hc : isComplete (turnCollect rdOk parsedDateTurn mgrPartial "c1").2.1 = true := rfl
  have hc0 : isComplete (turnCollect rdOk parsedFullTurn [] "c1").2.1 = true := rfl
  exact ⟨h.1.mpr hc, h.2.1 hc, h0.2.2 rfl hc0 "date_time" (by decide)⟩

/-- Claim C9: the extraction call fails closed.  When the underlying output
is unparsable, the contract returns the fallback response with an empty
`extracted_fields` map and the generic clarification text, the turn completes
normally with that reply (no error escapes), and the stored state — provided
the conversation had not already completed, which a reachable turn start
never has — is unchanged. -/
theorem c9_extraction_fail_closed (rd : String → DateValidation) (cal : CalendarCall)
    (persist : PersistArgs → PersistenceResult) (m : Manager) (chatId : String)
    (hc : ¬ isComplete (getOrCreateState m chatId).2 = true) :
    (callLLM none).extracted_info = [] ∧
    (callLLM none).response = fallbackBookingResponse.response ∧
    getState (processBookingMessage rd cal persist none m chatId).1 chatId =
      some (getOrCreateState m chatId).2 ∧
    (processBookingMessage rd cal persist none m chatId).2.answer =
      fallbackBookingResponse.response ∧
    (processBookingMessage rd cal persist none m chatId).2.intent = "booking" ∧
    (processBookingMessage rd cal persist none m chatId).2.is_complete = false := by
  have ht := turnCollect_none rd m chatId
  have hc' : ¬ isComplete (turnCollect rd none m chatId).2.1 = true := by
    rw [ht]
    exact hc
  have heq := processBookingMessage_incomplete_eq rd cal persist none m chatId hc'
  refine ⟨rfl, rfl, ?_, ?_, ?_, ?_⟩
  · rw [heq, ht]
    exact lookupA_insertA_self _ _ _
  · rw [heq, ht]
  · rw [heq]
  · rw [heq, ht]
    rfl

/-- Witness for C9: an unparsable turn on a partially-collected conversation
leaves its three collected fields in the store and replies with the generic
clarification. -/
theorem c9_extraction_fail_closed_witness :
    getState (processBookingMessage rdOk (CalendarCall.returned okCalendarEvent)
      persistOk none mgrPartial "c1").1 "c1" = some ashaPartialState ∧
    (processBookingMessage rdOk (CalendarCall.returned okCalendarEvent)
      persistOk none mgrPartial "c1").2.answer = fallbackBookingResponse.response ∧
    (processBookingMessage rdOk (CalendarCall.returned okCalendarEvent)
      persistOk none mgrPartial "c1").2.intent = "booking" := by
  have h := c9_extraction_fail_closed rdOk (CalendarCall.returned okCalendarEvent)
    persistOk mgrPartial "c1" (by decide)
  exact ⟨h.2.2.1, h.2.2.2.1, h.2.2.2.2.1⟩

/-- Claim C10: rejecting one candidate does not cancel the rest of the batch.
(i) The `collected` map produced by the loop is a fold over the whole
candidate batch and is independent of the response carried along — in
particular independent of any re-prompt set by an earlier rejection; (ii)
dropping a rejected candidate from the batch leaves the resulting `collected`
unchanged, so the remaining candidates are processed exactly as if the
rejection had not happened; (iii) when the turn's acceptances complete the
field set, the workflow runs in that same turn (the completion check ignores
the re-prompt). -/
theorem c10_rejection_not_batch_cancelling (rd : String → DateValidation)
    (pairs xs ys : List (String × String)) (f bad : String)
    (st : BookingState) (resp resp2 : BookingResponse)
    (cal : CalendarCall) (persist : PersistArgs → PersistenceResult)
    (parsed : Option BookingResponse) (m : Manager) (chatId : String) :
    ((processExtracted rd pairs st resp).1.collected =
      pairs.foldl (collectStep rd st.required_fields) st.collected) ∧
    (fieldValidate rd f bad = none →
      (processExtracted rd (xs ++ (f, bad) :: ys) st resp).1.collected =
        (processExtracted rd (xs ++ ys) st resp2).1.collected) ∧
    (isComplete (turnCollect rd parsed m chatId).2.1 = true →
      (processBookingMessage rd cal persist parsed m chatId).2.intent ≠ "booking") := by
  refine ⟨processExtracted_collected rd pairs st resp, ?_, ?_⟩
  · intro hbad
    rw [processExtracted_collected, processExtracted_collected,
      List.foldl_append, List.foldl_append, List.foldl_cons,
      collectStep_of_invalid rd st.required_fields _ (f, bad) hbad]
  · intro hc
    rw [processBookingMessage_complete_eq rd cal persist parsed m chatId hc]
    exact executeBookingWorkflow_intent_ne _ _ _ _ _

/-- Witness for C10: a rejected `date_time` candidate in the middle of a batch
leaves the processing of the surrounding candidates unchanged, and a turn
whose second `date_time` candidate completes the set still runs the workflow
although its first candidate was rejected. -/
theorem c10_rejection_not_batch_cancelling_witness :
    (processExtracted rdPicky ([("name", "Asha")] ++ ("date_time", "someday") ::
        [("phone", "(981) 234-5678")]) freshC1 fallbackBookingResponse).1.collected =
      (processExtracted rdPicky ([("name", "Asha")] ++ [("phone", "(981) 234-5678")])
        freshC1 fallbackBookingResponse).1.collected ∧
    (processBookingMessage rdPicky (CalendarCall.returned okCalendarEvent) persistOk
      parsedRejectThenAccept mgrPartial "c1").2.intent ≠ "booking" := by
  have h := c10_rejection_not_batch_cancelling rdPicky [] [("name", "Asha")]
    [("phone", "(981) 234-5678")] "date_time" "someday" freshC1
    fallbackBookingResponse fallbackBookingResponse
    (CalendarCall.returned okCalendarEvent) persistOk parsedRejectThenAccept
    mgrPartial "c1"
  exact ⟨h.2.1 rfl, h.2.2 rfl⟩

/-- Claim C4 fails on the code: `create_state` is not idempotent.  Calling it
for a conversation that already holds a collected name silently replaces the
state with a fresh one whose `collected` is empty. -/
theorem c4_create_not_idempotent_counterexample :
    lookupA ashaPartialState.collected "name" = some "Asha" ∧
    (createState mgrPartial "c1").2.collected = [] ∧
    getState (createState mgrPartial "c1").1 "c1" =
      some { step := BookingStep.collecting_name, collected := [],
             required_fields := requiredFields, chat_id := "c1" } := by
  exact ⟨rfl, rfl, rfl⟩

/-- Claim C4 (amended): `create_state` unconditionally installs a fresh state
with empty `collected`, discarding any existing state for the id.  Existing
collected fields survive only because the agent guards the call: it invokes
`create_state` solely when `get_state` returned none, and this get-or-create
composite returns an existing state unchanged, with the store untouched. -/
theorem c4_create_amended (m : Manager) (chatId : String) (st : BookingState)
    (h : getState m chatId = some st) :
    (createState m chatId).2.collected = [] ∧
    getOrCreateState m chatId = (m, st) :=
  ⟨rfl, getOrCreateState_some m chatId st h⟩

/-- Witness for the amended C4: the guarded get-or-create of the agent keeps
the three collected fields of the stored conversation. -/
theorem c4_create_amended_witness :
    (createState mgrPartial "c1").2.collected = [] ∧
    getOrCreateState mgrPartial "c1" = (mgrPartial, ashaPartialState) :=
  c4_create_amended mgrPartial "c1" ashaPartialState rfl

/-- Claim C2 fails on the code for the raised-error half: when the calendar
call raises, the `except` branch substitutes a mock *successful* event, so
the persisted record carries `calendar_event_id = "mock_event_id"` and the
mock meeting link, and the confirmation shows that link. -/
theorem c2_calendar_raised_counterexample :
    (workflowPersistArgs "c1" ashaCompleteState
      (calendarStep CalendarCall.raised "Call with Asha")).calendar_event_id =
        some "mock_event_id" ∧
    (workflowPersistArgs "c1" ashaCompleteState
      (calendarStep CalendarCall.raised "Call with Asha")).meeting_link =
        some "https://meet.google.com/mock-link" ∧
    (executeBookingWorkflow CalendarCall.raised persistOk mgrComplete "c1"
      ashaCompleteState).2.meeting_link = some "https://meet.google.com/mock-link" := by
  exact ⟨rfl, rfl, rfl⟩

/-- Claim C2 (amended): when the calendar collaborator *reports* failure
(returns an event with `success=False`) the orchestrator does not abort: it
proceeds to persistence with no `calendar_event_id` and no `meeting_link`
(and the written `BookingRecord` carries neither), and when persistence
succeeds the user sees the ordinary confirmation (intent
`"booking_complete"`) with an absent meeting link — no calendar error is
surfaced.  When the calendar call *raises*, however, the orchestrator
substitutes a mock successful event, so the persisted record carries the mock
event id and mock meeting link. -/
theorem c2_calendar_soft_fail_amended (ev : CalendarEvent)
    (persist : PersistArgs → PersistenceResult) (m : Manager) (chatId : String)
    (st : BookingState) (hfail : ev.success = false) :
    (workflowPersistArgs chatId st ev).calendar_event_id = none ∧
    (workflowPersistArgs chatId st ev).meeting_link = none ∧
    (∀ bid, (mkBookingRecord bid (workflowPersistArgs chatId st ev)).calendar_event_id = none ∧
      (mkBookingRecord bid (workflowPersistArgs chatId st ev)).meeting_link = none) ∧
    ((persist (workflowPersistArgs chatId st (calendarStep (CalendarCall.returned ev)
        ("Call with " ++ (lookupA st.collected "name").getD "")))).success = true →
      (executeBookingWorkflow (CalendarCall.returned ev) persist m chatId st).2.intent =
        "booking_complete" ∧
      (executeBookingWorkflow (CalendarCall.returned ev) persist m chatId st).2.meeting_link =
        none) ∧
    (∀ title,
      (workflowPersistArgs chatId st (calendarStep CalendarCall.raised title)).calendar_event_id =
        some "mock_event_id" ∧
      (workflowPersistArgs chatId st (calendarStep CalendarCall.raised title)).meeting_link =
        some "https://meet.google.com/mock-link") := by
  refine ⟨?_, ?_, ?_, ?_, ?_⟩
  · simp [workflowPersistArgs, hfail]
  · simp [workflowPersistArgs, hfail]
  · intro bid
    constructor
    · simp [mkBookingRecord, workflowPersistArgs, hfail]
    · simp [mkBookingRecord, workflowPersistArgs, hfail]
  · intro hps
    rw [executeBookingWorkflow_eq]
    rw [if_pos hps]
    refine ⟨rfl, ?_⟩
    show (if (calendarStep (CalendarCall.returned ev)
        ("Call with " ++ (lookupA st.collected "name").getD "")).success then
        (calendarStep (CalendarCall.returned ev)
          ("Call with " ++ (lookupA st.collected "name").getD "")).meeting_link
      else none) = none
    simp [calendarStep, hfail]
  · intro title
    exact ⟨by simp [workflowPersistArgs, calendarStep, mockCalendarEvent],
           by simp [workflowPersistArgs, calendarStep, mockCalendarEvent]⟩

/-- Witness for the amended C2: a reported calendar failure on a complete
conversation persists a record without calendar references and still
confirms the booking. -/
theorem c2_calendar_soft_fail_amended_witness :
    (workflowPersistArgs "c1" ashaCompleteState failedCalendarEvent).calendar_event_id = none ∧
    (executeBookingWorkflow (CalendarCall.returned failedCalendarEvent) persistOk
      mgrComplete "c1" ashaCompleteState).2.intent = "booking_complete" ∧
    (executeBookingWorkflow (CalendarCall.returned failedCalendarEvent) persistOk
      mgrComplete "c1" ashaCompleteState).2.meeting_link = none := by
  have h := c2_calendar_soft_fail_amended failedCalendarEvent persistOk mgrComplete
    "c1" ashaCompleteState rfl
  have hps := h.2.2.2.1 rfl
  exact ⟨h.1, hps.1, hps.2⟩

/-- Claim C1 is right and the code violates it: `clear_state` runs
unconditionally *before* the check of `persistence_result.success`
(booking_agent.py line 291 versus line 294), so after a failed persistence
the store no longer holds the conversation — even though the failure
response still carries the collected state and marks the conversation
incomplete for retry.  This theorem evaluates the whole turn at the failing
input: a conversation with name, phone and email collected supplies its
`date_time`, the workflow runs, persistence fails, and the store comes back
empty for that id while the response claims the state is preserved. -/
theorem c1_persistence_failure_state_lost :
    getState (processBookingMessage rdOk (CalendarCall.returned okCalendarEvent)
      persistFail parsedDateTurn mgrPartial "c1").1 "c1" = none ∧
    (processBookingMessage rdOk (CalendarCall.returned okCalendarEvent)
      persistFail parsedDateTurn mgrPartial "c1").2.intent = "booking_error" ∧
    (processBookingMessage rdOk (CalendarCall.returned okCalendarEvent)
      persistFail parsedDateTurn mgrPartial "c1").2.is_complete = false ∧
    (processBookingMessage rdOk (CalendarCall.returned okCalendarEvent)
      persistFail parsedDateTurn mgrPartial "c1").2.booking_state =
        some ashaCompleteState := by
  exact ⟨rfl, rfl, rfl, rfl⟩

end SmartDocs
